import Mathlib

/-! Shallow embedding of the nansat fragment (nansat/tools.py and
nansat/cli/nansat_geotiffimage.py) and proofs about it.

Conventions:
- Python machine floats are idealised as ℚ (exact color arithmetic) or ℝ
  (trigonometry); fallible Python code returns Option/Except.
- A Python exception is a value of PyExc.
- The process-wide numpy random source is made explicit: each call to
  np.random.randint consumes one raw entropy value u : ℕ from a list.
-/

/-- Python exceptions observable in this fragment. -/
inductive PyExc where
  | keyError : String → PyExc
  | valueError : PyExc
  | unboundLocalError : PyExc
deriving DecidableEq

/-- Models numpy np.random.randint(low, high): a uniform draw from the
half-open interval [low, high) (high is excluded, per numpy's documented
semantics). The raw entropy value u is reduced into range by modulus, so
every value of [low, high) is realisable and no other value is. -/
def randint (low high u : Nat) : Nat := low + u % (high - low)

/-- Value of one hexadecimal digit, as accepted by matplotlib's color regex
(#[a-fA-F0-9]\x7b6\x7d). -/
def hexDigitVal (c : Char) : Option Nat :=
  if '0' ≤ c ∧ c ≤ '9' then some (c.toNat - '0'.toNat)
  else if 'a' ≤ c ∧ c ≤ 'f' then some (c.toNat - 'a'.toNat + 10)
  else if 'A' ≤ c ∧ c ≤ 'F' then some (c.toNat - 'A'.toNat + 10)
  else none

/-- matplotlib.colors.hex2color: parses "#rrggbb" and returns the three
channels SCALED TO [0, 1] (each two-digit hex value divided by 255).
Returns none where matplotlib raises ValueError (malformed string). -/
def hex2color (s : String) : Option (ℚ × ℚ × ℚ) :=
  match s.data with
  | ['#', h1, h2, h3, h4, h5, h6] =>
    match hexDigitVal h1, hexDigitVal h2, hexDigitVal h3,
          hexDigitVal h4, hexDigitVal h5, hexDigitVal h6 with
    | some a, some b, some c, some d, some e, some f =>
      some ((16 * a + b : ℚ) / 255, (16 * c + d : ℚ) / 255, (16 * e + f : ℚ) / 255)
    | _, _, _, _, _, _ => none
  | _ => none

/-- The integer RGB triple (each channel in 0–255) named by a color string.
This is the reference scale the specification describes ("parse reference
into an RGB triple (0–255 each)"); note hex2color above, which the code
actually calls, divides each channel by 255. -/
def specRGBTriple (s : String) : Option (Nat × Nat × Nat) :=
  match s.data with
  | ['#', h1, h2, h3, h4, h5, h6] =>
    match hexDigitVal h1, hexDigitVal h2, hexDigitVal h3,
          hexDigitVal h4, hexDigitVal h5, hexDigitVal h6 with
    | some a, some b, some c, some d, some e, some f =>
      some (16 * a + b, 16 * c + d, 16 * e + f)
    | _, _, _, _, _, _ => none
  | _ => none

/-- Squared Euclidean distance between two integer RGB triples — the
distance the specification speaks about. -/
def rgbIntDistSq (x y : Nat × Nat × Nat) : ℤ :=
  ((x.1 : ℤ) - y.1) ^ 2 + ((x.2.1 : ℤ) - y.2.1) ^ 2 + ((x.2.2 : ℤ) - y.2.2) ^ 2

/-- Squared distance computed by get_random_color, line 264:
np.sum((c0rgb - c1rgb)**2) with c0rgb the hex2color [0,1]-scaled reference
and c1rgb the integer candidate. -/
def codeDistSq (c0 : ℚ × ℚ × ℚ) (c1 : Nat × Nat × Nat) : ℚ :=
  (c0.1 - c1.1) ^ 2 + (c0.2.1 - c1.2.1) ^ 2 + (c0.2.2 - c1.2.2) ^ 2

/-- The code's comparison d < minDist at line 267, where d = dsq ** 0.5.
Since dsq is a sum of squares (dsq ≥ 0), d < m iff 0 < m and dsq < m²,
which keeps the development in exact rationals. -/
def distLt (dsq m : ℚ) : Bool := decide (0 < m) && decide (dsq < m ^ 2)

/-- Rejection loop of get_random_color (lines 259–273): draw a candidate
with randint under the current bounds; if the computed distance is below
minDist, recurse — and the recursive call at line 268 passes only (c0,
minDist), so the retry runs with the DEFAULT bounds low = 0, high = 255.
The entropy list us is the explicit random source; none means the modeled
entropy ran out (the Python loop would keep drawing forever). -/
def grcLoop (c0rgb : ℚ × ℚ × ℚ) (minDist : ℚ) (low high : Nat) :
    List Nat → Option (Nat × Nat × Nat)
  | u1 :: u2 :: u3 :: rest =>
    let c1 := (randint low high u1, randint low high u2, randint low high u3)
    if distLt (codeDistSq c0rgb c1) minDist then grcLoop c0rgb minDist 0 255 rest
    else some c1
  | _ => none

/-- get_random_color (tools.py lines 237–273). The returned triple is the
accepted candidate; the code formats it as a lowercase zero-padded hex
string, which is a bijective renaming for channels in 0–255. Except.error
models the ValueError hex2color raises on a malformed reference. -/
def get_random_color (c0 : Option String) (minDist : ℚ) (low high : Nat)
    (us : List Nat) : Except PyExc (Option (Nat × Nat × Nat)) :=
  let c0s := match c0 with
    | none => "#000000"
    | some s => s
  match hex2color c0s with
  | none => Except.error PyExc.valueError
  | some c0rgb => Except.ok (grcLoop c0rgb minDist low high us)

/-- Python str.strip(): remove whitespace from both ends. -/
def pyStrip (s : String) : String :=
  ⟨((s.data.dropWhile Char.isWhitespace).reverse.dropWhile
      Char.isWhitespace).reverse⟩

/-- parse_time (tools.py lines 276–297), with the external dateutil parser
abstracted as an oracle p; p returns none exactly where dateutil's parse
raises ValueError. The except-branch only assigns time_value when the
stripped string has length 11 and ends in Z (its last character is Z); on
any other ValueError the function falls through to `return time_value`
with time_value unassigned, which raises UnboundLocalError in Python. A
ValueError of the inner parse of the first 10 characters is not caught
and propagates. -/
def parse_time {α : Type} (p : String → Option α) (time_string : String) :
    Except PyExc α :=
  let ts := pyStrip time_string
  match p ts with
  | some v => Except.ok v
  | none =>
    if ts.data.length == 11 && ts.data.getLast? == some 'Z' then
      match p ⟨ts.data.take 10⟩ with
      | some v => Except.ok v
      | none => Except.error PyExc.valueError
    else Except.error PyExc.unboundLocalError

/-- Association-list model of os.environ. -/
def lookupEnv (env : List (String × String)) (k : String) : Option String :=
  match env with
  | [] => none
  | (k2, v) :: rest => if k2 == k then some v else lookupEnv rest k

/-- os.environ[k] = v (later bindings shadow earlier ones for lookupEnv). -/
def setEnv (env : List (String × String)) (k v : String) :
    List (String × String) := (k, v) :: env

/-- Accumulator loop for a run of decimal digits. -/
def pyDigitsAux : List Char → Nat → Option Nat
  | [], acc => some acc
  | c :: rest, acc =>
    if '0' ≤ c ∧ c ≤ '9' then pyDigitsAux rest (10 * acc + (c.toNat - '0'.toNat))
    else none

/-- A non-empty run of decimal digits, as a natural number. -/
def pyDigits (cs : List Char) : Option Nat :=
  match cs with
  | [] => none
  | _ => pyDigitsAux cs 0

/-- Python int(s) on a string: an optional sign followed by decimal
digits; none where int() raises ValueError. -/
def pyInt (s : String) : Option Int :=
  match s.data with
  | '-' :: rest => (pyDigits rest).map (fun n => -(n : Int))
  | '+' :: rest => (pyDigits rest).map (fun n => (n : Int))
  | cs => (pyDigits cs).map (fun n => (n : Int))

/-- add_logger (tools.py lines 194–234), observed through the level it
sets. If logLevel is not None it is first written into the environment
(line 212); then line 216 reads os.environ['LOG_LEVEL'] unguarded — a
missing key raises KeyError, a non-integer value makes int() raise
ValueError. On success the logger's effective level is returned. -/
def add_logger (logName : String) (logLevel : Option Int)
    (env : List (String × String)) : Except PyExc Int :=
  let env2 := match logLevel with
    | some v => setEnv env "LOG_LEVEL" (toString v)
    | none => env
  match lookupEnv env2 "LOG_LEVEL" with
  | none => Except.error (PyExc.keyError "LOG_LEVEL")
  | some s =>
    match pyInt s with
    | none => Except.error PyExc.valueError
    | some lvl => Except.ok lvl

/-- Outcome of the nansat_geotiffimage CLI: either Usage() — which calls
sys.exit(message), printing the usage string and terminating with exit
status 1 — or the call n.write_geotiffimage(outfileName, bandNo) on the
dataset opened from infileName, after which the script exits 0. -/
inductive CliOutcome where
  | usage : CliOutcome
  | run : String → String → Int → CliOutcome
deriving DecidableEq

/-- Exit status of the process for each outcome: sys.exit(string) exits
with status 1; falling off the end of main exits 0. -/
def exit_code : CliOutcome → Nat
  | CliOutcome.usage => 1
  | CliOutcome.run _ _ _ => 0

/-- main of nansat_geotiffimage.py (lines 15–27). argv models sys.argv,
argv[0] being the program name. If len(argv) <= 2, Usage. Otherwise the
try block runs int(argv[1]); argv[2]; argv[3]: an IndexError (argv[3]
missing) or a ValueError (argv[1] not an integer) is caught by the bare
except and leads to Usage; else the export runs. -/
def main_cli (argv : List String) : CliOutcome :=
  if argv.length ≤ 2 then CliOutcome.usage
  else
    match argv[1]?, argv[2]?, argv[3]? with
    | some a1, some a2, some a3 =>
      match pyInt a1 with
      | some band => CliOutcome.run a2 a3 band
      | none => CliOutcome.usage
    | _, _, _ => CliOutcome.usage

/-- np.radians: degrees to radians. -/
noncomputable def radians (x : ℝ) : ℝ := x * (Real.pi / 180)

/-- np.degrees: radians to degrees. -/
noncomputable def degrees (x : ℝ) : ℝ := x * (180 / Real.pi)

/-- np.arctan2 y x, idealised over ℝ via the complex argument of x + y·i;
range (-π, π], and arctan2 0 0 = 0 as in IEEE atan2. -/
noncomputable def arctan2 (y x : ℝ) : ℝ := Complex.arg ⟨x, y⟩

/-- numpy / scipy mod(x, m) = x - m·⌊x/m⌋ (result carries the sign of the
divisor). -/
noncomputable def npmod (x m : ℝ) : ℝ := x - m * (⌊x / m⌋ : ℤ)

/-- initial_bearing (tools.py lines 147–175): bearing = arctan2(sin Δlon ·
cos lat2, cos lat1 · sin lat2 − sin lat1 · cos lat2 · cos Δlon) in radians,
then mod(degrees(bearing) + 360, 360). -/
noncomputable def initial_bearing (lon1 lat1 lon2 lat2 : ℝ) : ℝ :=
  npmod (degrees (arctan2
      (Real.sin (radians lon2 - radians lon1) * Real.cos (radians lat2))
      (Real.cos (radians lat1) * Real.sin (radians lat2) -
        Real.sin (radians lat1) * Real.cos (radians lat2) *
          Real.cos (radians lon2 - radians lon1))) + 360) 360

/-- The intermediate a of haversine (tools.py line 188):
sin²(Δlat/2) + cos lat1 · cos lat2 · sin²(Δlon/2), in radians. -/
noncomputable def haversine_a (lon1 lat1 lon2 lat2 : ℝ) : ℝ :=
  Real.sin ((radians lat2 - radians lat1) / 2) ^ 2 +
    Real.cos (radians lat1) * Real.cos (radians lat2) *
      Real.sin ((radians lon2 - radians lon1) / 2) ^ 2

/-- haversine (tools.py lines 178–191): 6367000 · 2 · arcsin(sqrt a). -/
noncomputable def haversine (lon1 lat1 lon2 lat2 : ℝ) : ℝ :=
  6367000 * (2 * Real.arcsin (Real.sqrt (haversine_a lon1 lat1 lon2 lat2)))

/-- Claim C1 (code-bug evidence): with the well-formed reference
"#ffffff", min_distance 100 and the default bounds, the code accepts the
candidate (250, 250, 250) — line 264 measures the distance between the
hex2color-scaled reference (1, 1, 1) and the 0–255 integer candidate —
although the integer-scale RGB distance between #ffffff = (255, 255, 255)
and (250, 250, 250) is √75 ≈ 8.66, far below min_distance = 100. -/
theorem claim_C1_scale_mix_bug :
    get_random_color (some "#ffffff") 100 0 255 [250, 250, 250] =
        Except.ok (some (250, 250, 250)) ∧
      specRGBTriple "#ffffff" = some (255, 255, 255) ∧
      rgbIntDistSq (255, 255, 255) (250, 250, 250) < 100 ^ 2 := by
  have hhex : hex2color "#ffffff" = some (1, 1, 1) := by
    simp [hex2color, hexDigitVal]
    norm_num
  have hr : randint 0 255 250 = 250 := by norm_num [randint]
  have hd : distLt (codeDistSq (1, 1, 1) (250, 250, 250)) 100 = false := by
    norm_num [distLt, codeDistSq]
  refine ⟨?_, rfl, by decide⟩
  simp only [get_random_color, hhex]
  simp only [grcLoop, hr]
  rw [hd]
  simp

/-- Claim C2, counterexample: with the default bounds low = 0, high = 255,
no entropy value ever yields the channel value 255 — np.random.randint
excludes its upper bound, so the claimed inclusive range [low, high] is
wrong at its top end. -/
theorem claim_C2_counterexample : ¬ ∃ u : Nat, randint 0 255 u = 255 := by
  rintro ⟨u, hu⟩
  unfold randint at hu
  omega

/-- Claim C2 as amended: each candidate channel is drawn from the
half-open range [low, high) — inclusive of low, exclusive of high — so
with the default high = 255 the largest possible channel value is 254. -/
theorem claim_C2_halfopen_range (low high u : Nat) (h : low < high) :
    low ≤ randint low high u ∧ randint low high u ≤ high - 1 := by
  unfold randint
  have hmod : u % (high - low) < high - low := Nat.mod_lt _ (by omega)
  omega

/-- Witness for claim C2's amended theorem at low = 0, high = 255, u = 7. -/
theorem claim_C2_witness :
    0 < 255 ∧ (0 ≤ randint 0 255 7 ∧ randint 0 255 7 ≤ 254) :=
  ⟨by decide, claim_C2_halfopen_range 0 255 7 (by decide)⟩

/-- Claim C3 (code-bug evidence): on an input the date parser rejects
that is not an 11-character Z-terminated string, parse_time fails with
UnboundLocalError (time_value referenced before assignment): the except
clause swallows the ValueError and never re-raises it, so no
parse-failure error reaches the caller. -/
theorem claim_C3_unbound_local :
    parse_time (fun _ => (none : Option Nat)) "garbage" =
      Except.error PyExc.unboundLocalError := rfl

/-- Claim C8: the CLI prints usage and exits non-zero when fewer than 3
positional arguments are supplied (argv, which includes the program name,
has length at most 3) or the band argument is not an integer; otherwise
it invokes write_geotiffimage(outfile, band) on the dataset and exits 0
on success. -/
theorem claim_C8_cli (argv : List String) :
    (argv.length ≤ 3 →
      main_cli argv = CliOutcome.usage ∧ exit_code (main_cli argv) ≠ 0) ∧
      (∀ a0 a1 a2 a3 rest, argv = a0 :: a1 :: a2 :: a3 :: rest →
        (pyInt a1 = none →
          main_cli argv = CliOutcome.usage ∧ exit_code (main_cli argv) ≠ 0) ∧
        (∀ b : Int, pyInt a1 = some b →
          main_cli argv = CliOutcome.run a2 a3 b ∧
            exit_code (main_cli argv) = 0)) := by
  constructor
  · intro hlen
    rcases argv with _ | ⟨a0, _ | ⟨a1, _ | ⟨a2, _ | ⟨a3, rest⟩⟩⟩⟩
    · exact ⟨rfl, fun hc => Nat.one_ne_zero hc⟩
    · exact ⟨rfl, fun hc => Nat.one_ne_zero hc⟩
    · exact ⟨rfl, fun hc => Nat.one_ne_zero hc⟩
    · exact ⟨rfl, fun hc => Nat.one_ne_zero hc⟩
    · simp only [List.length_cons] at hlen
      omega
  · rintro a0 a1 a2 a3 rest rfl
    have hcond : ¬ ((a0 :: a1 :: a2 :: a3 :: rest).length ≤ 2) := by
      simp only [List.length_cons]
      omega
    constructor
    · intro hp
      have hmain : main_cli (a0 :: a1 :: a2 :: a3 :: rest) = CliOutcome.usage := by
        unfold main_cli
        rw [if_neg hcond]
        simp [hp]
      exact ⟨hmain, by rw [hmain]; decide⟩
    · intro b hp
      have hmain : main_cli (a0 :: a1 :: a2 :: a3 :: rest) =
          CliOutcome.run a2 a3 b := by
        unfold main_cli
        rw [if_neg hcond]
        simp [hp]
      exact ⟨hmain, by rw [hmain]; rfl⟩

/-- Witness for claim C8 at argv = [prog, 2, in.tif, out.tif]. -/
theorem claim_C8_witness :
    pyInt "2" = some 2 ∧
      main_cli [ "prog", "2", "in.tif", "out.tif"] =
          CliOutcome.run "in.tif" "out.tif" 2 ∧
      exit_code (main_cli [ "prog", "2", "in.tif", "out.tif"]) = 0 := by
  have hp : pyInt "2" = some 2 := rfl
  have h := ((claim_C8_cli [ "prog", "2", "in.tif", "out.tif"]).2 "prog" "2"
    "in.tif" "out.tif" [] rfl).2 2 hp
  exact ⟨hp, h.1, h.2⟩

/-- Claim C9: when the first candidate — drawn with the caller-supplied
bounds — is rejected, the computation continues exactly as a call with
the default bounds low = 0, high = 255 on the remaining entropy, because
the recursive retry call passes only the reference color and minDist. -/
theorem claim_C9_retry_default_bounds (c0rgb : ℚ × ℚ × ℚ) (minDist : ℚ)
    (low high u1 u2 u3 : Nat) (rest : List Nat)
    (h : distLt (codeDistSq c0rgb
        (randint low high u1, randint low high u2, randint low high u3))
        minDist = true) :
    grcLoop c0rgb minDist low high (u1 :: u2 :: u3 :: rest) =
      grcLoop c0rgb minDist 0 255 rest := by
  simp only [grcLoop, h, if_true]

/-- Witness for claim C9: reference (0, 0, 0), minDist 1000 and caller
bounds low = 10, high = 20; the first candidate (10, 10, 10) is rejected
and the retry proceeds with the default bounds. -/
theorem claim_C9_witness :
    distLt (codeDistSq (0, 0, 0)
        (randint 10 20 0, randint 10 20 0, randint 10 20 0)) 1000 = true ∧
      grcLoop (0, 0, 0) 1000 10 20 [0, 0, 0] = grcLoop (0, 0, 0) 1000 0 255 [] :=
  ⟨by norm_num [distLt, codeDistSq, randint],
    claim_C9_retry_default_bounds (0, 0, 0) 1000 10 20 0 0 0 []
      (by norm_num [distLt, codeDistSq, randint])⟩

/-- Claim C10: add_logger called with logLevel = None while LOG_LEVEL is
absent from the environment fails with a KeyError when line 216 reads
os.environ['LOG_LEVEL']; there is no fallback default verbosity. -/
theorem claim_C10_keyerror (logName : String) (env : List (String × String))
    (h : lookupEnv env "LOG_LEVEL" = none) :
    add_logger logName none env = Except.error (PyExc.keyError "LOG_LEVEL") := by
  unfold add_logger
  simp [h]

/-- Witness for claim C10 at the empty environment. -/
theorem claim_C10_witness :
    lookupEnv [] "LOG_LEVEL" = none ∧
      add_logger "" none [] = Except.error (PyExc.keyError "LOG_LEVEL") :=
  ⟨rfl, claim_C10_keyerror "" [] rfl⟩

/-- For a positive modulus, npmod lands in the half-open interval [0, m). -/
theorem npmod_mem (x m : ℝ) (hm : 0 < m) : 0 ≤ npmod x m ∧ npmod x m < m := by
  have hfr : npmod x m = m * Int.fract (x / m) := by
    unfold npmod Int.fract
    field_simp
  constructor
  · rw [hfr]
    exact mul_nonneg hm.le (Int.fract_nonneg _)
  · rw [hfr]
    calc m * Int.fract (x / m) < m * 1 :=
          mul_lt_mul_of_pos_left (Int.fract_lt_one _) hm
      _ = m := mul_one m

/-- sin²((x−y)/2) is symmetric in x and y. -/
theorem sin_sq_sub_comm (x y : ℝ) :
    Real.sin ((x - y) / 2) ^ 2 = Real.sin ((y - x) / 2) ^ 2 := by
  have h : (x - y) / 2 = -((y - x) / 2) := by ring
  rw [h, Real.sin_neg, neg_sq]

/-- The haversine intermediate a is symmetric under swapping the two
points. -/
theorem hav_a_comm (a b c d : ℝ) : haversine_a a b c d = haversine_a c d a b := by
  unfold haversine_a
  rw [sin_sq_sub_comm (radians d) (radians b),
    sin_sq_sub_comm (radians c) (radians a)]
  ring

/-- Half-angle identity sin²(t/2) = (1 − cos t)/2. -/
theorem sin_half_sq (t : ℝ) : Real.sin (t / 2) ^ 2 = 1 / 2 - Real.cos t / 2 := by
  have h1 := Real.sin_sq (t / 2)
  have h2 := Real.cos_sq (t / 2)
  have h3 : 2 * (t / 2) = t := by ring
  rw [h3] at h2
  rw [h1, h2]
  ring

/-- Core bound: sin²((q−p)/2) + cos p · cos q · sin²(d/2) lies in [0, 1]
for ALL real angles (the bracket equals (1 − (sin p sin q +
cos p cos q cos d))/2, and the inner product is at most 1 in absolute
value by Cauchy–Schwarz). -/
theorem hav_a_bounds (p q d : ℝ) :
    0 ≤ Real.sin ((q - p) / 2) ^ 2 +
        Real.cos p * Real.cos q * Real.sin (d / 2) ^ 2 ∧
      Real.sin ((q - p) / 2) ^ 2 +
          Real.cos p * Real.cos q * Real.sin (d / 2) ^ 2 ≤ 1 := by
  have hs1 := sin_half_sq (q - p)
  have hs2 := sin_half_sq d
  have hc : Real.cos (q - p) = Real.cos q * Real.cos p + Real.sin q * Real.sin p :=
    Real.cos_sub q p
  have hp1 : Real.sin p ^ 2 + Real.cos p ^ 2 = 1 := Real.sin_sq_add_cos_sq p
  have hp2 : Real.sin q ^ 2 + Real.cos q ^ 2 = 1 := Real.sin_sq_add_cos_sq q
  have hd1 : Real.cos d ≤ 1 := Real.cos_le_one d
  have hd2 : -1 ≤ Real.cos d := Real.neg_one_le_cos d
  have hcq : 0 ≤ Real.cos q ^ 2 * (1 - Real.cos d ^ 2) := by
    apply mul_nonneg (sq_nonneg _)
    nlinarith
  have hkey : (Real.sin p * Real.sin q +
      Real.cos p * Real.cos q * Real.cos d) ^ 2 ≤ 1 := by
    nlinarith [sq_nonneg (Real.sin p * (Real.cos q * Real.cos d) -
      Real.cos p * Real.sin q)]
  constructor
  · rw [hs1, hs2, hc]
    nlinarith [sq_nonneg (Real.sin p * Real.sin q +
      Real.cos p * Real.cos q * Real.cos d - 1)]
  · rw [hs1, hs2, hc]
    nlinarith [sq_nonneg (Real.sin p * Real.sin q +
      Real.cos p * Real.cos q * Real.cos d + 1)]

/-- Claim C4: for all four real inputs, initial_bearing lies in [0, 360):
the final mod(· + 360, 360) with positive divisor 360 guarantees it. -/
theorem claim_C4_bearing_range (lon1 lat1 lon2 lat2 : ℝ) :
    0 ≤ initial_bearing lon1 lat1 lon2 lat2 ∧
      initial_bearing lon1 lat1 lon2 lat2 < 360 := by
  unfold initial_bearing
  exact npmod_mem _ 360 (by norm_num)

/-- Claim C5: for identical start and end points the bearing is 0; both
arctan2 arguments vanish, arctan2 0 0 = 0, and mod(0 + 360, 360) = 0. -/
theorem claim_C5_identical_points (lon lat : ℝ) :
    initial_bearing lon lat lon lat = 0 := by
  unfold initial_bearing arctan2
  have h0 : radians lon - radians lon = 0 := sub_self _
  rw [h0]
  have hy : Real.sin (0 : ℝ) * Real.cos (radians lat) = 0 := by
    rw [Real.sin_zero, zero_mul]
  have hx : Real.cos (radians lat) * Real.sin (radians lat) -
      Real.sin (radians lat) * Real.cos (radians lat) * Real.cos (0 : ℝ) = 0 := by
    rw [Real.cos_zero]
    ring
  rw [hy, hx]
  have hz : (⟨0, 0⟩ : ℂ) = 0 := rfl
  rw [hz, Complex.arg_zero]
  have hdeg : degrees 0 = 0 := by
    unfold degrees
    rw [zero_mul]
  rw [hdeg]
  unfold npmod
  norm_num

/-- Claim C6: haversine is symmetric in its two points. -/
theorem claim_C6_haversine_symm (a b c d : ℝ) :
    haversine a b c d = haversine c d a b := by
  unfold haversine
  rw [hav_a_comm]

/-- Claim C7: for every input the intermediate a of haversine lies in
[0, 1] at the point where sqrt and arcsin are applied, so both are
evaluated within their domains (in the exact-real semantics of this
embedding; the code contains no explicit clamp and needs none here). -/
theorem claim_C7_a_in_unit_interval (lon1 lat1 lon2 lat2 : ℝ) :
    0 ≤ haversine_a lon1 lat1 lon2 lat2 ∧
      haversine_a lon1 lat1 lon2 lat2 ≤ 1 := by
  unfold haversine_a
  exact hav_a_bounds (radians lat1) (radians lat2) (radians lon2 - radians lon1)
